import Mathlib

/-!
Shallow embedding of the spotify-queue-bot repository (oauth2.py,
spotify_client.py, src/spotify_client.py, src/queue_bot.py) and proofs
about the claims of its natural-language specification.

Python strings are modelled as Lean `String`; machine-level details do not
arise.  Python exceptions are modelled by the `PyError` type below, and a
function that can raise returns `Except PyError`.  Network I/O (the POST to
the token endpoint, the console read of the pasted redirect URL) is modelled
by an explicit environment record supplying the response, and the number of
authentication POSTs actually issued is threaded through the results so that
"how many network authentication calls happened" is a provable quantity.
All definitions use structural recursion only, so closed instances evaluate
inside the kernel (`rfl` / `decide`).
-/

/-- Exceptions the Python code can raise.  The repository defines no
exception classes of its own: it raises bare `Exception(msg)` and lets
builtin `KeyError` / `IndexError` / `TypeError` / `AttributeError` escape. -/
inductive PyError where
  | exception (msg : String)
  | keyError (key : String)
  | indexError
  | typeError (msg : String)
  | attributeError (name : String)
deriving Repr, DecidableEq

/-- Structural list-prefix test (helper for substring search). -/
def listIsPrefixOf : List Char → List Char → Bool
  | [], _ => true
  | _ :: _, [] => false
  | p :: ps, c :: cs => p == c && listIsPrefixOf ps cs

/-- Substring containment, modelling Python `pat in s` on strings. -/
def containsSub (pat : List Char) : List Char → Bool
  | [] => listIsPrefixOf pat []
  | c :: cs => listIsPrefixOf pat (c :: cs) || containsSub pat cs

/-- Split a character list at every occurrence of a single separator
character (used to split a query string on the ampersand). -/
def splitOnChar (sep : Char) : List Char → List (List Char)
  | [] => [[]]
  | c :: cs =>
    let r := splitOnChar sep cs
    if c == sep then [] :: r
    else
      match r with
      | [] => [[c]]
      | g :: gs => (c :: g) :: gs

/-- Split at the first equals sign, like Python `field.partition("=")`:
returns `none` when the field has no equals sign. -/
def splitFirstEq : List Char → Option (List Char × List Char)
  | [] => none
  | c :: cs =>
    if c == '=' then some ([], cs)
    else
      match splitFirstEq cs with
      | none => none
      | some (k, v) => some (c :: k, v)

/-- Characters strictly before the first occurrence of `sep`. -/
def takeUntilChar (sep : Char) : List Char → List Char
  | [] => []
  | c :: cs => if c == sep then [] else c :: takeUntilChar sep cs

/-- Characters strictly after the first occurrence of `sep`, or `none`
when `sep` does not occur. -/
def dropUntilChar (sep : Char) : List Char → Option (List Char)
  | [] => none
  | c :: cs => if c == sep then some cs else dropUntilChar sep cs

/-- Hexadecimal digit value, for percent-decoding; works on the code
point, with 48–57 the digits, 97–102 lowercase and 65–70 uppercase. -/
def hexVal (c : Char) : Option Nat :=
  let n := c.toNat
  if 48 ≤ n ∧ n ≤ 57 then some (n - 48)
  else if 97 ≤ n ∧ n ≤ 102 then some (n - 87)
  else if 65 ≤ n ∧ n ≤ 70 then some (n - 55)
  else none

/-- Percent-decoding of `%XX` escapes (part of `urllib.parse.unquote_plus`).
Malformed escapes are kept verbatim, as in Python. -/
def percentDecode : List Char → List Char
  | '%' :: a :: b :: rest =>
    match hexVal a, hexVal b with
    | some x, some y => Char.ofNat (16 * x + y) :: percentDecode rest
    | _, _ => '%' :: percentDecode (a :: b :: rest)
  | c :: rest => c :: percentDecode rest
  | [] => []

/-- Model of `urllib.parse.unquote_plus`: plus signs become spaces and
percent escapes are decoded. -/
def unquote_plus (cs : List Char) : List Char :=
  percentDecode (cs.map fun c => if c == '+' then ' ' else c)

/-- Model of `urllib.parse.parse_qsl` with default arguments: split the
query on ampersands, keep only fields with a non-empty value, unquote
names and values. -/
def parse_qsl (query : List Char) : List (String × String) :=
  (splitOnChar '&' query).filterMap fun field =>
    match splitFirstEq field with
    | none => none
    | some (k, v) =>
      if v.isEmpty then none
      else some (⟨unquote_plus k⟩, ⟨unquote_plus v⟩)

/-- Values listed in `parse_qs(query)[key]`: all values of `key` in order
of appearance, `none` when the key never appears (a `KeyError` in Python). -/
def parse_qs_values (query : List Char) (key : String) : Option (List String) :=
  let vals := ((parse_qsl query).filter fun p => p.1 == key).map fun p => p.2
  if vals.isEmpty then none else some vals

/-- Query component of a URL, as `urllib.parse.urlparse(uri).query` returns
it: the part after the first question mark of the part before the first
hash sign. -/
def urlQuery (uri : String) : String :=
  match dropUntilChar '?' (takeUntilChar '#' uri.data) with
  | none => ""
  | some q => ⟨q⟩

/-- Base64 alphabet used by `base64.b64encode`. -/
def b64Alphabet : List Char :=
  "ABCDEFGHIJKLMNOPQRSTUVWXYZabcdefghijklmnopqrstuvwxyz0123456789+/".data

/-- Character of the base64 alphabet at a 6-bit index. -/
def b64Char (n : Nat) : Char := b64Alphabet.getD n 'A'

/-- Standard base64 encoding of a byte list, with padding. -/
def base64Encode : List Nat → List Char
  | [] => []
  | [a] => [b64Char (a / 4), b64Char (a % 4 * 16), '=', '=']
  | [a, b] => [b64Char (a / 4), b64Char (a % 4 * 16 + b / 16), b64Char (b % 16 * 4), '=']
  | a :: b :: c :: rest =>
    b64Char (a / 4) :: b64Char (a % 4 * 16 + b / 16) ::
      b64Char (b % 16 * 4 + c / 64) :: b64Char (c % 64) :: base64Encode rest

/-- UTF-8 bytes of one code point. -/
def utf8Bytes (c : Char) : List Nat :=
  let n := c.toNat
  if n < 128 then [n]
  else if n < 2048 then [192 + n / 64, 128 + n % 64]
  else if n < 65536 then [224 + n / 4096, 128 + n / 64 % 64, 128 + n % 64]
  else [240 + n / 262144, 128 + n / 4096 % 64, 128 + n / 64 % 64, 128 + n % 64]

/-- UTF-8 encoding of a string, as Python `s.encode()`. -/
def strBytes (s : String) : List Nat := (s.data.map utf8Bytes).flatten

/-- Instance state of `SpotifyAPIOAuth2` (oauth2.py).  `client_id`,
`client_secret`, `access_token` and `auth_code` are `None` or a string in
Python, hence `Option String`; `access_token_expires` is `None` or a
datetime, modelled as an integer timestamp in seconds. -/
structure OAuthState where
  client_id : Option String
  client_secret : Option String
  access_token : Option String
  access_token_expires : Option Int
  access_token_did_expire : Bool
  auth_code : Option String
deriving Repr, DecidableEq

/-- Class attribute `redirect_uri` of `SpotifyAPIOAuth2`. -/
def redirect_uri : String := "http://jasondamico.me"

/-- Constructor `SpotifyAPIOAuth2.__init__`: stores the two arguments
verbatim; all other attributes keep their class-level defaults.  Note that
it performs no validation and cannot fail. -/
def spotifyAPIOAuth2_init (client_id client_secret : Option String) : OAuthState :=
  { client_id := client_id
    client_secret := client_secret
    access_token := none
    access_token_expires := none
    access_token_did_expire := true
    auth_code := none }

/-- Method `get_client_credentials`: raises a bare `Exception` when either
credential is `None`, otherwise returns the base64 of `id:secret`.  An
empty string is not `None` and passes the check. -/
def get_client_credentials (st : OAuthState) : Except PyError String :=
  match st.client_id, st.client_secret with
  | some cid, some csec =>
    .ok ⟨base64Encode (strBytes (cid ++ ":" ++ csec))⟩
  | _, _ => .error (.exception "You must set client_id and client_secret.")

/-- Method `get_token_headers`: the Basic-auth header, propagating the
credential check of `get_client_credentials`. -/
def get_token_headers (st : OAuthState) : Except PyError (List (String × String)) :=
  (get_client_credentials st).map fun b64 => [("Authorization", "Basic " ++ b64)]

/-- Method `get_token_data`: the form body for the token POST. -/
def get_token_data (st : OAuthState) (auth_type : String) : List (String × Option String) :=
  if auth_type == "authorization_code" then
    [("grant_type", some auth_type), ("code", st.auth_code),
     ("redirect_uri", some redirect_uri)]
  else
    [("grant_type", some auth_type)]

/-- Method `get_code_from_uri`: `parse_qs(urlparse(uri).query)["code"][0]`.
A URI whose query has no `code` parameter makes the dictionary lookup raise
`KeyError("code")`; nothing in the repository catches it. -/
def get_code_from_uri (uri : String) : Except PyError String :=
  match parse_qs_values (urlQuery uri).data "code" with
  | none => .error (.keyError "code")
  | some [] => .error .indexError
  | some (v :: _) => .ok v

/-- Response of the token endpoint to a POST.  The body fields are the
`access_token` and `expires_in` values of the response JSON; the code reads
them unguarded (`data["access_token"]`), and the spec fixes the response
shape to `{access_token, expires_in, ...}`, so the body is modelled as
always carrying both. -/
structure TokenResponse where
  status : Nat
  access_token : String
  expires_in : Int
deriving Repr, DecidableEq

/-- Environment of one authentication interaction: what the token endpoint
persistently answers, the current time (`datetime.datetime.now()`), and the
redirect URL the user pastes at the consent prompt. -/
structure AuthEnv where
  response : TokenResponse
  now : Int
  pastedUri : String
deriving Repr, DecidableEq

/-- Result of running a piece of the Python code: a normal return, a raised
exception, or exhaustion of the fuel that bounds the modelled recursion. -/
inductive RunResult (α : Type) where
  | ok (a : α)
  | raised (e : PyError)
  | outOfFuel
deriving Repr, DecidableEq

/-- A run result together with the instance state at the moment the run
ended (Python keeps partial mutations when an exception is raised) and the
number of POSTs issued to the token endpoint during the run. -/
structure Outcome (α : Type) where
  result : RunResult α
  state : OAuthState
  authCalls : Nat
deriving Repr, DecidableEq

/-- Tail of `perform_auth` from the POST on: one request is issued; on a
status in Python `range(200, 299)` — that is, `200 ≤ s < 299` — the token
fields are overwritten from the response body with
`access_token_expires = now + expires_in`, and `True` is returned; on any
other status a bare `Exception` is raised and the state is untouched. -/
def perform_auth_response (env : AuthEnv) (st : OAuthState) : Outcome Bool :=
  let s := env.response.status
  if 200 ≤ s ∧ s < 299 then
    let expires := env.now + env.response.expires_in
    { result := .ok true
      state := { st with
        access_token := some env.response.access_token
        access_token_expires := some expires
        access_token_did_expire := decide (expires < env.now) }
      authCalls := 1 }
  else
    { result := .raised (.exception "Could not authenticate client.")
      state := st
      authCalls := 1 }

/-- Method `store_auth_code`: opens the browser (pure side effect, not
modelled), reads the pasted redirect URL from the console (supplied by the
environment) and stores the extracted code; a raise of `get_code_from_uri`
propagates and leaves `auth_code` unchanged. -/
def store_auth_code (env : AuthEnv) (st : OAuthState) : Except PyError OAuthState :=
  (get_code_from_uri env.pastedUri).map fun code => { st with auth_code := some code }

/-- Method `perform_auth` of `SpotifyAPIOAuth2`.  For `client_credentials`
the header construction (credential check) precedes the POST; for
`authorization_code` the consent flow runs first, then the header
construction, then the POST; any other grant type raises immediately with
no request issued. -/
def perform_auth (env : AuthEnv) (st : OAuthState) (auth_type : String) : Outcome Bool :=
  if auth_type == "client_credentials" then
    match get_token_headers st with
    | .error e => { result := .raised e, state := st, authCalls := 0 }
    | .ok _ => perform_auth_response env st
  else if auth_type == "authorization_code" then
    match store_auth_code env st with
    | .error e => { result := .raised e, state := st, authCalls := 0 }
    | .ok st1 =>
      match get_token_headers st1 with
      | .error e => { result := .raised e, state := st1, authCalls := 0 }
      | .ok _ => perform_auth_response env st1
  else
    { result := .raised (.exception "Invalid authorization flow entered.")
      state := st
      authCalls := 0 }

/-- Condition of the re-authentication branch in `get_access_token`:
`self.access_token_expires < now or token == None`.  The token is treated
as usable exactly when this is `false`. -/
def needsReauth (expires now : Int) (token : Option String) : Bool :=
  decide (expires < now) || token.isNone

/-- Method `get_access_token` of `SpotifyAPIOAuth2` (oauth2.py).  The
Python method first calls `perform_auth` unconditionally, reads the (new)
token, and when the stored expiry is in the past or the token is `None`
calls `perform_auth` again and recurses with no bound; the recursion is
modelled with a fuel parameter, `outOfFuel` marking runs that exceed the
fuel.  Comparing a `None` expiry against `now` would raise a `TypeError`
in Python; that branch is unreachable after a successful `perform_auth`. -/
def get_access_token (env : AuthEnv) : Nat → OAuthState → String → Outcome (Option String)
  | 0, st, _ => { result := .outOfFuel, state := st, authCalls := 0 }
  | fuel + 1, st, auth_type =>
    let o := perform_auth env st auth_type
    match o.result with
    | .raised e => { result := .raised e, state := o.state, authCalls := o.authCalls }
    | .outOfFuel => { result := .outOfFuel, state := o.state, authCalls := o.authCalls }
    | .ok auth_done =>
      if !auth_done then
        { result := .raised (.exception "Authentication failed")
          state := o.state, authCalls := o.authCalls }
      else
        let token := o.state.access_token
        match o.state.access_token_expires with
        | none =>
          { result := .raised (.typeError "compared None expiry with now")
            state := o.state, authCalls := o.authCalls }
        | some expires =>
          if needsReauth expires env.now token then
            let o2 := perform_auth env o.state auth_type
            match o2.result with
            | .raised e =>
              { result := .raised e, state := o2.state
                authCalls := o.authCalls + o2.authCalls }
            | .outOfFuel =>
              { result := .outOfFuel, state := o2.state
                authCalls := o.authCalls + o2.authCalls }
            | .ok _ =>
              let o3 := get_access_token env fuel o2.state auth_type
              { result := o3.result, state := o3.state
                authCalls := o.authCalls + o2.authCalls + o3.authCalls }
          else
            { result := .ok token, state := o.state, authCalls := o.authCalls }

/-- Method `perform_auth` of the top-level `SpotifyAPI` (spotify_client.py):
identical to the oauth2 one specialised to the `client_credentials` grant
(its `get_token_data` carries only `grant_type`). -/
def sc_perform_auth (env : AuthEnv) (st : OAuthState) : Outcome Bool :=
  perform_auth env st "client_credentials"

/-- Method `get_access_token` of the top-level `SpotifyAPI`
(spotify_client.py).  It differs from the oauth2 accessor in one detail:
`token = self.access_token` is read BEFORE the unconditional
`perform_auth`, so when the pre-existing token passes the validity check
the old token is returned — though the network call has happened anyway. -/
def sc_get_access_token (env : AuthEnv) : Nat → OAuthState → Outcome (Option String)
  | 0, st => { result := .outOfFuel, state := st, authCalls := 0 }
  | fuel + 1, st =>
    let token := st.access_token
    let o := sc_perform_auth env st
    match o.result with
    | .raised e => { result := .raised e, state := o.state, authCalls := o.authCalls }
    | .outOfFuel => { result := .outOfFuel, state := o.state, authCalls := o.authCalls }
    | .ok auth_done =>
      if !auth_done then
        { result := .raised (.exception "Authentication failed")
          state := o.state, authCalls := o.authCalls }
      else
        match o.state.access_token_expires with
        | none =>
          { result := .raised (.typeError "compared None expiry with now")
            state := o.state, authCalls := o.authCalls }
        | some expires =>
          if needsReauth expires env.now token then
            let o2 := sc_perform_auth env o.state
            match o2.result with
            | .raised e =>
              { result := .raised e, state := o2.state
                authCalls := o.authCalls + o2.authCalls }
            | .outOfFuel =>
              { result := .outOfFuel, state := o2.state
                authCalls := o.authCalls + o2.authCalls }
            | .ok _ =>
              let o3 := sc_get_access_token env fuel o2.state
              { result := o3.result, state := o3.state
                authCalls := o.authCalls + o2.authCalls + o3.authCalls }
          else
            { result := .ok token, state := o.state, authCalls := o.authCalls }

/-- Minimal JSON values, enough for the search-result shapes the code
indexes into. -/
inductive Json where
  | str (s : String)
  | num (n : Int)
  | obj (fields : List (String × Json))
  | arr (xs : List Json)
deriving Repr

/-- First binding of a key in a JSON object field list. -/
def lookupField : List (String × Json) → String → Option Json
  | [], _ => none
  | (k, v) :: rest, key => if k == key then some v else lookupField rest key

/-- Python `j[key]` on a parsed JSON value: `KeyError` when the key is
missing from an object, `TypeError` when the value is not an object. -/
def jsonGet (j : Json) (key : String) : Except PyError Json :=
  match j with
  | .obj fields =>
    match lookupField fields key with
    | some v => .ok v
    | none => .error (.keyError key)
  | _ => .error (.typeError "value is not subscriptable by a string key")

/-- Python `j[i]` on a parsed JSON list: `IndexError` when the index is out
of range, `TypeError` when the value is not a list. -/
def jsonIndex (j : Json) (i : Nat) : Except PyError Json :=
  match j with
  | .arr xs =>
    match xs.get? i with
    | some v => .ok v
    | none => .error .indexError
  | _ => .error (.typeError "value is not subscriptable by an integer index")

/-- Method `get_first_track_uri` of `SpotifyAPI` (src/spotify_client.py):
`track_search_json["tracks"]["items"][0]["uri"]`, with the Python
exceptions of each subscript propagating. -/
def get_first_track_uri (track_search_json : Json) : Except PyError Json := do
  let tracks ← jsonGet track_search_json "tracks"
  let items ← jsonGet tracks "items"
  let first ← jsonIndex items 0
  jsonGet first "uri"

/-- The search-result JSON `{"tracks":{"items":[]}}` named by the spec. -/
def emptyTracksJson : Json := .obj [("tracks", .obj [("items", .arr [])])]

/-- Reporting behaviour of method `add_to_queue` (src/spotify_client.py):
after the POST, a status in Python `range(200, 299)` prints nothing;
otherwise the printed line is `"%d ERROR: %s" % (status, reason)` where
`reason` is the HTTP reason phrase, replaced for status 404 by the
launch-your-application message. -/
def add_to_queue_report (status : Nat) (httpReason : String) : Option String :=
  if 200 ≤ status ∧ status < 299 then none
  else
    let reason :=
      if status == 404 then "Connection not made, please launch your Spotify application"
      else httpReason
    some (Nat.repr status ++ " ERROR: " ++ reason)

/-- Method `__has_album_flag` of `QueueBot` (src/queue_bot.py):
`"-album" in query`. -/
def has_album_flag (query : String) : Bool :=
  containsSub "-album".data query.data

/-- Specialisation of Python `query.replace("-album", "")`: delete every
(left-to-right, non-overlapping) occurrence of `-album`. -/
def stripAlbumFlag : List Char → List Char
  | '-' :: 'a' :: 'l' :: 'b' :: 'u' :: 'm' :: rest => stripAlbumFlag rest
  | c :: rest => c :: stripAlbumFlag rest
  | [] => []

/-- Method `__process_queue_query` of `QueueBot`: `-quit` clears the active
flag and returns Python `None`; a query with the album flag is returned
with the flag deleted; anything else is returned unchanged.  The first
component is the `active` flag after the call (the loop entered with it
`True`). -/
def process_queue_query (query : String) : Bool × Option String :=
  if query == "-quit" then (false, none)
  else if has_album_flag query then (true, some ⟨stripAlbumFlag query.data⟩)
  else (true, some query)

/-- Observable requests one loop iteration can issue. -/
inductive BotAction where
  | search (q : String) (search_type : String)
  | queueAdd (uri : Json)
deriving Repr

/-- Network answers the environment supplies to one loop iteration. -/
structure BotEnv where
  searchResults : Json
  queueStatus : Nat
  queueReason : String

/-- Result of one iteration of the `perform_queue_adding` loop body. -/
structure BotStep where
  active : Bool
  actions : List BotAction
  messages : List String
  result : RunResult Unit

/-- One iteration of the read loop in `perform_queue_adding`
(src/queue_bot.py) on the raw input line `raw`.  After processing the
query, an inactive bot does nothing; otherwise the search runs with type
`album` or `track` according to the flag in the raw input.  The track
branch looks up the first track URI — an `IndexError` is caught and
reported per the raw query — and queues it, collecting the printed report
of `add_to_queue`.  The album branch calls `get_first_album_id`, a method
that exists nowhere in the repository, so Python raises an
`AttributeError`, which the `except IndexError` clause does not catch. -/
def queue_bot_step (env : BotEnv) (raw : String) : BotStep :=
  match process_queue_query raw with
  | (false, _) => { active := false, actions := [], messages := [], result := .ok () }
  | (true, none) =>
    { active := true, actions := []
      messages := [], result := .raised (.exception "A query is required") }
  | (true, some q) =>
    let search_type := if has_album_flag raw then "album" else "track"
    let sact := BotAction.search q search_type
    if search_type == "track" then
      match get_first_track_uri env.searchResults with
      | .ok uri =>
        { active := true
          actions := [sact, .queueAdd uri]
          messages := (add_to_queue_report env.queueStatus env.queueReason).toList
          result := .ok () }
      | .error .indexError =>
        { active := true
          actions := [sact]
          messages := ["No results returned for \x27" ++ raw ++ "\x27."]
          result := .ok () }
      | .error e =>
        { active := true, actions := [sact], messages := [], result := .raised e }
    else
      { active := true, actions := [sact], messages := []
        result := .raised (.attributeError "get_first_album_id") }

/-- The read loop of `perform_queue_adding`, driven by the (finite) list of
lines the user will type; the same network environment answers every
iteration.  The loop stops when the active flag is cleared, when an
uncaught exception escapes, or when the scripted input runs out; it returns
all requests issued and all lines printed. -/
def perform_queue_adding (env : BotEnv) : List String → List BotAction × List String
  | [] => ([], [])
  | raw :: rest =>
    let s := queue_bot_step env raw
    match s.result with
    | .ok _ =>
      if s.active then
        let r := perform_queue_adding env rest
        (s.actions ++ r.1, s.messages ++ r.2)
      else (s.actions, s.messages)
    | _ => (s.actions, s.messages)

/-- A freshly constructed instance with both credentials set. -/
def stInit : OAuthState := spotifyAPIOAuth2_init (some "id") (some "secret")

/-- An instance state holding a stored token that is still valid at time 0
(it expires at 1000). -/
def stValid : OAuthState :=
  { client_id := some "id"
    client_secret := some "sec"
    access_token := some "cached"
    access_token_expires := some 1000
    access_token_did_expire := false
    auth_code := none }

/-- Environment whose token endpoint answers 200 with a fresh one-hour
token, at current time 0. -/
def envFresh : AuthEnv := { response := ⟨200, "fresh", 3600⟩, now := 0, pastedUri := "" }

/-- Environment whose token endpoint persistently answers 200 with a token
that is already expired on arrival (`expires_in = -1`). -/
def envExpired : AuthEnv := { response := ⟨200, "tok", -1⟩, now := 0, pastedUri := "" }

/-- Environment whose token endpoint answers with boundary status 299. -/
def env299 : AuthEnv := { response := ⟨299, "tok", 3600⟩, now := 0, pastedUri := "" }

/-- C1 counterexample: in a state whose stored token `"cached"` is present
and valid until time 1000 (current time 0), one accessor call still issues
one network authentication call — not zero — and (oauth2 accessor) returns
the freshly fetched token instead of the stored one; a second accessor
call inside the same validity window brings the total to two network
authentication calls, not one. -/
theorem c1_counterexample :
    (get_access_token envFresh 5 stValid "client_credentials").authCalls = 1 ∧
    (get_access_token envFresh 5 stValid "client_credentials").result = .ok (some "fresh") ∧
    (get_access_token envFresh 5 stValid "client_credentials").authCalls +
      (get_access_token envFresh 5
        (get_access_token envFresh 5 stValid "client_credentials").state
        "client_credentials").authCalls = 2 := by
  decide

/-- C1 (amended): both accessors call `perform_auth` unconditionally, so
even with a present, unexpired stored token every accessor call issues
exactly one network authentication call; the oauth2 accessor returns the
token just fetched, the spotify_client accessor returns the previously
stored token; two calls in one validity window therefore issue exactly two
network authentication calls. -/
theorem c1_accessor_always_authenticates (env : AuthEnv) (st : OAuthState)
    (t0 : String) (n m k : Nat)
    (hid : st.client_id.isSome) (hsec : st.client_secret.isSome)
    (hs1 : 200 ≤ env.response.status) (hs2 : env.response.status < 299)
    (hexp : 0 ≤ env.response.expires_in)
    (htok : st.access_token = some t0) :
    (get_access_token env (n + 1) st "client_credentials").authCalls = 1 ∧
    (get_access_token env (n + 1) st "client_credentials").result =
      .ok (some env.response.access_token) ∧
    (sc_get_access_token env (m + 1) st).authCalls = 1 ∧
    (sc_get_access_token env (m + 1) st).result = .ok (some t0) ∧
    (get_access_token env (n + 1) st "client_credentials").authCalls +
      (get_access_token env (k + 1)
        (get_access_token env (n + 1) st "client_credentials").state
        "client_credentials").authCalls = 2 := by
  obtain ⟨cid, hcid⟩ := Option.isSome_iff_exists.mp hid
  obtain ⟨csec, hcsec⟩ := Option.isSome_iff_exists.mp hsec
  have hnl : ¬ (env.now + env.response.expires_in < env.now) := by omega
  have hif : (200 ≤ env.response.status ∧ env.response.status < 299) := ⟨hs1, hs2⟩
  simp [get_access_token, sc_get_access_token, sc_perform_auth, perform_auth,
    get_token_headers, get_client_credentials, hcid, hcsec, Except.map,
    perform_auth_response, hif, needsReauth, hnl, htok]

/-- C1 witness: the amended statement at the concrete valid-token state. -/
theorem c1_witness :
    (get_access_token envFresh 1 stValid "client_credentials").authCalls = 1 ∧
    (get_access_token envFresh 1 stValid "client_credentials").result =
      .ok (some "fresh") ∧
    (sc_get_access_token envFresh 1 stValid).authCalls = 1 ∧
    (sc_get_access_token envFresh 1 stValid).result = .ok (some "cached") ∧
    (get_access_token envFresh 1 stValid "client_credentials").authCalls +
      (get_access_token envFresh 1
        (get_access_token envFresh 1 stValid "client_credentials").state
        "client_credentials").authCalls = 2 :=
  c1_accessor_always_authenticates envFresh stValid "cached" 0 0 0
    rfl rfl (by decide) (by decide) (by decide) rfl

/-- Helper for C2: under the persistently-expired-token endpoint, the
accessor recursion never returns, whatever the fuel, from any state that
carries the credentials. -/
theorem gat_envExpired_diverges :
    ∀ (fuel : Nat) (st : OAuthState), st.client_id = some "id" →
      st.client_secret = some "secret" →
      (get_access_token envExpired fuel st "client_credentials").result = .outOfFuel := by
  intro fuel
  induction fuel with
  | zero => intro st _ _; rfl
  | succ n ih =>
    intro st h1 h2
    simp only [get_access_token, perform_auth, get_token_headers,
      get_client_credentials, h1, h2, perform_auth_response, needsReauth, envExpired]
    simp only [Except.map]
    norm_num
    exact ih _ rfl rfl

/-- C2: the code's `get_access_token` recursion is unbounded.  Starting
from a fresh instance, with a token endpoint that persistently answers 200
with an already-expired token (`expires_in = -1`), the run exceeds every
fuel bound: it neither returns nor raises, for any amount of fuel — there
is no retry cap and no `AuthenticationError` past a cap. -/
theorem c2_unbounded_recursion (fuel : Nat) :
    (get_access_token envExpired fuel stInit "client_credentials").result = .outOfFuel :=
  gat_envExpired_diverges fuel stInit rfl rfl

/-- C3 counterexample: HTTP status 299 lies in the claimed success
interval [200,299], yet `perform_auth` treats it as a failure — the Python
test is `status_code in range(200, 299)`, which excludes 299 — and raises
the fixed generic exception instead of parsing the body. -/
theorem c3_counterexample :
    (perform_auth env299 stInit "client_credentials").result =
      .raised (.exception "Could not authenticate client.") ∧
    (perform_auth env299 stInit "client_credentials").state = stInit := by
  decide

/-- Helper: successful branch of `perform_auth` on the client-credentials
grant — one POST, token fields overwritten from the response. -/
theorem perform_auth_cc_success (env : AuthEnv) (st : OAuthState)
    (hid : st.client_id.isSome) (hsec : st.client_secret.isSome)
    (hok : 200 ≤ env.response.status ∧ env.response.status < 299) :
    perform_auth env st "client_credentials" =
      { result := .ok true
        state := { st with
          access_token := some env.response.access_token
          access_token_expires := some (env.now + env.response.expires_in)
          access_token_did_expire :=
            decide (env.now + env.response.expires_in < env.now) }
        authCalls := 1 } := by
  obtain ⟨cid, hcid⟩ := Option.isSome_iff_exists.mp hid
  obtain ⟨csec, hcsec⟩ := Option.isSome_iff_exists.mp hsec
  simp [perform_auth, get_token_headers, get_client_credentials, hcid, hcsec,
    Except.map, perform_auth_response, hok]

/-- Helper: failing branch of `perform_auth` on the client-credentials
grant — one POST, a bare exception, state untouched. -/
theorem perform_auth_cc_failure (env : AuthEnv) (st : OAuthState)
    (hid : st.client_id.isSome) (hsec : st.client_secret.isSome)
    (hbad : ¬ (200 ≤ env.response.status ∧ env.response.status < 299)) :
    perform_auth env st "client_credentials" =
      { result := .raised (.exception "Could not authenticate client.")
        state := st
        authCalls := 1 } := by
  obtain ⟨cid, hcid⟩ := Option.isSome_iff_exists.mp hid
  obtain ⟨csec, hcsec⟩ := Option.isSome_iff_exists.mp hsec
  simp [perform_auth, get_token_headers, get_client_credentials, hcid, hcsec,
    Except.map, perform_auth_response, hbad]

/-- C3 (amended): with credentials set, `perform_auth` on the
client-credentials grant issues exactly one POST; on a status in [200,298]
it parses `access_token` and `expires_in` from the body, stores
`expires_at = now + expires_in`, and returns `True`; on any status outside
[200,298] it raises the fixed exception `Could not authenticate client.`
— which carries no status code — leaves the state untouched, and issues
no further request. -/
theorem c3_perform_auth_status (env : AuthEnv) (st : OAuthState)
    (hid : st.client_id.isSome) (hsec : st.client_secret.isSome) :
    ((200 ≤ env.response.status ∧ env.response.status < 299) →
      perform_auth env st "client_credentials" =
        { result := .ok true
          state := { st with
            access_token := some env.response.access_token
            access_token_expires := some (env.now + env.response.expires_in)
            access_token_did_expire :=
              decide (env.now + env.response.expires_in < env.now) }
          authCalls := 1 }) ∧
    (¬ (200 ≤ env.response.status ∧ env.response.status < 299) →
      perform_auth env st "client_credentials" =
        { result := .raised (.exception "Could not authenticate client.")
          state := st
          authCalls := 1 }) :=
  ⟨perform_auth_cc_success env st hid hsec, perform_auth_cc_failure env st hid hsec⟩

/-- C3 witness: the amended statement evaluated at status 299 (failure
side) on a fresh instance. -/
theorem c3_witness :
    perform_auth env299 stInit "client_credentials" =
      { result := .raised (.exception "Could not authenticate client.")
        state := stInit
        authCalls := 1 } :=
  (c3_perform_auth_status env299 stInit rfl rfl).2 (by decide)

/-- C4 counterexample: a token issued by `perform_auth` at time 0 with
`expires_in = 3600` has `expires_at = 3600`, and at the boundary instant
`now = expires_at = 3600` the accessor's re-authentication test
`expires_at < now or token is None` is `false`: the boundary is treated as
still valid, not as expired as the claim states. -/
theorem c4_counterexample :
    (perform_auth envFresh stInit "client_credentials").state.access_token_expires =
      some 3600 ∧
    needsReauth 3600 3600
      ((perform_auth envFresh stInit "client_credentials").state.access_token) = false := by
  decide

/-- C4 (amended): a token issued with `expires_in = 3600` is usable by the
accessor's validity check at 3599 and also at exactly 3600 seconds after
issuance, and expired at 3601 seconds; in general a present token is
usable exactly when `now ≤ expires_at` — the boundary `now = expires_at`
counts as usable. -/
theorem c4_validity_window (env : AuthEnv) (st : OAuthState)
    (hid : st.client_id.isSome) (hsec : st.client_secret.isSome)
    (hs : 200 ≤ env.response.status ∧ env.response.status < 299)
    (hexp : env.response.expires_in = 3600) :
    (perform_auth env st "client_credentials").state.access_token_expires =
      some (env.now + 3600) ∧
    needsReauth (env.now + 3600) (env.now + 3599)
      ((perform_auth env st "client_credentials").state.access_token) = false ∧
    needsReauth (env.now + 3600) (env.now + 3600)
      ((perform_auth env st "client_credentials").state.access_token) = false ∧
    needsReauth (env.now + 3600) (env.now + 3601)
      ((perform_auth env st "client_credentials").state.access_token) = true ∧
    (∀ (e now : Int) (t : String), needsReauth e now (some t) = false ↔ now ≤ e) := by
  have h := perform_auth_cc_success env st hid hsec hs
  rw [h]
  refine ⟨by rw [hexp], ?_, ?_, ?_, ?_⟩
  · simp [needsReauth]
  · simp [needsReauth]
  · simp [needsReauth]
  · intro e now t
    simp [needsReauth]

/-- C4 witness: the amended statement at issuance time 0 on a fresh
instance, yielding the boundary-usable fact at `now = 3600`. -/
theorem c4_witness :
    needsReauth (0 + 3600) (0 + 3600)
      ((perform_auth envFresh stInit "client_credentials").state.access_token) = false :=
  (c4_validity_window envFresh stInit rfl rfl (by decide) (by decide)).2.2.1

/-- C5: the pasted redirect URL with a `code` query parameter yields the
extracted code `ABC`; a pasted URL without a `code` parameter makes
`get_code_from_uri` raise `KeyError("code")` — an unhandled builtin
exception, not a `ConsentError` (no such handling exists anywhere in the
repository). -/
theorem c5_code_extraction :
    get_code_from_uri "http://x/?code=ABC&state=123" = .ok "ABC" ∧
    get_code_from_uri "http://x/?state=123" = .error (.keyError "code") := by
  constructor <;> rfl

/-- C6 counterexample: on the search-result JSON
`{"tracks":{"items":[]}}` the first-track lookup raises the builtin
`IndexError` — the repository defines no `ResourceNotFoundError`, so the
failure is not of that kind. -/
theorem c6_counterexample :
    get_first_track_uri emptyTracksJson = .error .indexError := rfl

/-- Network environment whose search persistently returns the empty-items
result. -/
def botEnvEmpty : BotEnv := { searchResults := emptyTracksJson, queueStatus := 200, queueReason := "OK" }

/-- C6 (amended): the empty-items lookup raises `IndexError`, which
`perform_queue_adding` catches: the iteration completes normally (nothing
escapes the CLI loop), the bot stays active, and the failure is reported
per the query that produced it. -/
theorem c6_empty_results_contained :
    (queue_bot_step botEnvEmpty "somequery").result = .ok () ∧
    (queue_bot_step botEnvEmpty "somequery").active = true ∧
    (queue_bot_step botEnvEmpty "somequery").messages =
      ["No results returned for \x27somequery\x27."] ∧
    (queue_bot_step botEnvEmpty "somequery").actions =
      [.search "somequery" "track"] :=
  ⟨rfl, rfl, rfl, rfl⟩

/-- C7: a queue-add answered with HTTP 404 is reported with the dedicated
cannot-reach-the-player message (`Connection not made, please launch your
Spotify application`) in place of the raw HTTP reason, and every other
status outside the success range is reported generically with its status
code and reason. -/
theorem c7_queue_add_report :
    (∀ r, add_to_queue_report 404 r =
      some "404 ERROR: Connection not made, please launch your Spotify application") ∧
    (∀ (s : Nat) (r : String), (s < 200 ∨ 299 < s) → s ≠ 404 →
      add_to_queue_report s r = some (Nat.repr s ++ " ERROR: " ++ r)) := by
  constructor
  · intro r; rfl
  · intro s r hrange hne
    have hbad : ¬ (200 ≤ s ∧ s < 299) := by omega
    have hb : (s == 404) = false := by simp [hne]
    simp [add_to_queue_report, hbad, hb]

/-- C7 witness: the reports at status 404 and at status 500. -/
theorem c7_witness :
    add_to_queue_report 404 "Not Found" =
      some "404 ERROR: Connection not made, please launch your Spotify application" ∧
    add_to_queue_report 500 "Server Error" = some "500 ERROR: Server Error" :=
  ⟨c7_queue_add_report.1 "Not Found",
   c7_queue_add_report.2 500 "Server Error" (Or.inr (by omega)) (by omega)⟩

/-- C8 counterexample: constructing the store with an empty client id
succeeds — no error of any kind is raised at construction time — and even
the later credential check accepts the empty string, returning the base64
encoding of `:s`. -/
theorem c8_counterexample :
    (spotifyAPIOAuth2_init (some "") (some "s")).client_id = some "" ∧
    get_client_credentials (spotifyAPIOAuth2_init (some "") (some "s")) = .ok "OnM=" :=
  ⟨rfl, rfl⟩

/-- C8 (amended): the constructor validates nothing and stores both
arguments verbatim, whatever they are; only the later
`get_client_credentials` call checks them, raising a bare exception
exactly when one of them is `None` — an empty string passes. -/
theorem c8_construction_unvalidated (cid csec : Option String) :
    (spotifyAPIOAuth2_init cid csec).client_id = cid ∧
    (spotifyAPIOAuth2_init cid csec).client_secret = csec ∧
    ((∃ v, get_client_credentials (spotifyAPIOAuth2_init cid csec) = .ok v) ↔
      cid.isSome ∧ csec.isSome) := by
  refine ⟨rfl, rfl, ?_⟩
  cases cid <;> cases csec <;>
    simp [get_client_credentials, spotifyAPIOAuth2_init]

/-- C9: the raw input `Bohemian Rhapsody -album` makes the loop iteration
search with type `album` and the flag-stripped text `Bohemian Rhapsody `
(trailing space preserved), and the literal input `-quit` clears the
active flag and ends the read loop with no request of any kind issued,
even with further input pending. -/
theorem c9_cli_classification :
    (queue_bot_step botEnvEmpty "Bohemian Rhapsody -album").actions =
      [.search "Bohemian Rhapsody " "album"] ∧
    process_queue_query "Bohemian Rhapsody -album" = (true, some "Bohemian Rhapsody ") ∧
    (queue_bot_step botEnvEmpty "-quit").active = false ∧
    (queue_bot_step botEnvEmpty "-quit").actions = [] ∧
    perform_queue_adding botEnvEmpty ["-quit", "anything else"] = ([], []) :=
  ⟨rfl, rfl, rfl, rfl, rfl⟩

/-- C10: `perform_auth` is atomic on error — whenever it raises (bad grant
type, failed credential check, failed consent parse, or non-success
status) the three stored token fields are exactly as before the call — and
it overwrites them only when it returns normally, which happens only for a
success status, after which the stored access token is the response body's
token and in particular is not `None`. -/
theorem c10_perform_auth_atomic (env : AuthEnv) (st : OAuthState) (auth_type : String) :
    (∀ e, (perform_auth env st auth_type).result = .raised e →
      (perform_auth env st auth_type).state.access_token = st.access_token ∧
      (perform_auth env st auth_type).state.access_token_expires = st.access_token_expires ∧
      (perform_auth env st auth_type).state.access_token_did_expire = st.access_token_did_expire) ∧
    (∀ b, (perform_auth env st auth_type).result = .ok b →
      b = true ∧
      (200 ≤ env.response.status ∧ env.response.status < 299) ∧
      (perform_auth env st auth_type).state.access_token = some env.response.access_token ∧
      (perform_auth env st auth_type).state.access_token ≠ none) := by
  have hresp : ∀ st' : OAuthState,
      (200 ≤ env.response.status ∧ env.response.status < 299 ∧
        perform_auth_response env st' =
          { result := .ok true
            state := { st' with
              access_token := some env.response.access_token
              access_token_expires := some (env.now + env.response.expires_in)
              access_token_did_expire :=
                decide (env.now + env.response.expires_in < env.now) }
            authCalls := 1 }) ∨
      (¬ (200 ≤ env.response.status ∧ env.response.status < 299) ∧
        perform_auth_response env st' =
          { result := .raised (.exception "Could not authenticate client.")
            state := st'
            authCalls := 1 }) := by
    intro st'
    by_cases hs : 200 ≤ env.response.status ∧ env.response.status < 299
    · exact Or.inl ⟨hs.1, hs.2, by simp [perform_auth_response, hs]⟩
    · exact Or.inr ⟨hs, by simp [perform_auth_response, hs]⟩
  have hstore : ∀ st1 : OAuthState, store_auth_code env st = .ok st1 →
      st1.access_token = st.access_token ∧
      st1.access_token_expires = st.access_token_expires ∧
      st1.access_token_did_expire = st.access_token_did_expire := by
    intro st1 h
    cases hcode : get_code_from_uri env.pastedUri with
    | error e => rw [store_auth_code, hcode] at h; cases h
    | ok code =>
      rw [store_auth_code, hcode] at h
      cases h
      exact ⟨rfl, rfl, rfl⟩
  unfold perform_auth
  split
  · -- client-credentials grant
    split
    · simp
    · rcases hresp st with ⟨h1, h2, hr⟩ | ⟨hs, hr⟩ <;> rw [hr]
      · exact ⟨(fun e he => by cases he), (fun b hb => by cases hb; simp [h1, h2])⟩
      · exact ⟨(fun e _ => ⟨rfl, rfl, rfl⟩), (fun b hb => by cases hb)⟩
  · split
    · -- authorization-code grant
      split
      · simp
      · rename_i st1 hst
        have hfields := hstore st1 hst
        split
        · exact ⟨(fun e _ => hfields), (fun b hb => by cases hb)⟩
        · rcases hresp st1 with ⟨h1, h2, hr⟩ | ⟨hs, hr⟩ <;> rw [hr]
          · exact ⟨(fun e he => by cases he), (fun b hb => by cases hb; simp [h1, h2])⟩
          · exact ⟨(fun e _ => hfields), (fun b hb => by cases hb)⟩
    · simp

/-- C10 witness: an invalid grant type raises and leaves the stored token
untouched. -/
theorem c10_witness :
    (perform_auth envFresh stInit "bogus").state.access_token = stInit.access_token :=
  ((c10_perform_auth_atomic envFresh stInit "bogus").1
    (.exception "Invalid authorization flow entered.") rfl).1
